import Mathlib

/-!
Formalisation of the microplastics/biomagnification notebook
(`microplastics_modeling.ipynb`).  The notebook is a straight-line
computation over exact decimal literals; we embed it over `ℚ`, which makes
every arithmetic identity exact.  Length-3 numpy arrays become the `Vec3`
structure, numpy elementwise `*`, `np.sum`, `.dot` and scalar broadcast `+`
become the corresponding `Vec3` operations.
-/

namespace Microplastics

/-- Length-3 numeric vector mirroring the 3-element numpy arrays
(components: protein, carbohydrate, lipid). -/
structure Vec3 where
  p : ℚ
  c : ℚ
  l : ℚ

/-- Elementwise product, mirroring numpy `*` on two arrays. -/
def Vec3.mul (u v : Vec3) : Vec3 :=
  ⟨u.p * v.p, u.c * v.c, u.l * v.l⟩

/-- Sum of the components, mirroring `np.sum`. -/
def Vec3.sum (u : Vec3) : ℚ :=
  u.p + u.c + u.l

/-- Dot product, mirroring `np.dot` / `.dot`. -/
def Vec3.dot (u v : Vec3) : ℚ :=
  u.p * v.p + u.c * v.c + u.l * v.l

/-- Broadcast addition of a scalar to every component, mirroring
numpy `array + scalar`. -/
def Vec3.addScalar (u : Vec3) (s : ℚ) : Vec3 :=
  ⟨u.p + s, u.c + s, u.l + s⟩

/-- Dugong counteracting-force constant (`du_gamma = 0.01`). -/
def du_gamma : ℚ := 0.01

/-- Dugong dry-matter digestibility (`du_a = (0.96, 0.96, 0.96)`). -/
def du_a : Vec3 := ⟨0.96, 0.96, 0.96⟩

/-- Dugong diet fractions (`du_phi = (0.16, 0.61, 0.01)`). -/
def du_phi : Vec3 := ⟨0.16, 0.61, 0.01⟩

/-- Squid counteracting-force constant (`sq_gamma = 0.12`). -/
def sq_gamma : ℚ := 0.12

/-- Squid dry-matter digestibility (`sq_a = (0.95, 0, 0.85)`). -/
def sq_a : Vec3 := ⟨0.95, 0, 0.85⟩

/-- Squid diet fractions (`sq_phi = (0.66, 0.05, 0.14)`). -/
def sq_phi : Vec3 := ⟨0.66, 0.05, 0.14⟩

/-- Marine mysid counteracting-force constant (`th_gamma = 0.12`). -/
def th_gamma : ℚ := 0.12

/-- Marine mysid dry-matter digestibility (`th_a = (0.85, 0.62, 0.96)`). -/
def th_a : Vec3 := ⟨0.85, 0.62, 0.96⟩

/-- Marine mysid diet fractions (`th_phi = (0.5, 0, 0.31)`). -/
def th_phi : Vec3 := ⟨0.5, 0, 0.31⟩

/-- Shared effective-concentration vector (`z = (0.05, 0.1, 1)`). -/
def z : Vec3 := ⟨0.05, 0.1, 1⟩

/-- Tunable coupling multiplier (`lam = 1e5`). -/
def lam : ℚ := 1e5

/-- Monthly boba consumption estimate (`avg_boba_per_month = 5`). -/
def avg_boba_per_month : ℚ := 5

/-- Plastic volume per straw in liters (`vol_plastic_per_straw = 0.016`). -/
def vol_plastic_per_straw : ℚ := 0.016

/-- Student population (`num_students = 43000`). -/
def num_students : ℚ := 43000

/-- Annual plastic waste as a function of the three tunable scalars; the
notebook evaluates this expression once at its literal inputs:
`num_students * avg_boba_per_month * vol_plastic_per_straw * 12`. -/
def plastic_waste_fn (students rate vol : ℚ) : ℚ :=
  students * rate * vol * 12

/-- Notebook definition of `plastic_waste_per_year`. -/
def plastic_waste_per_year : ℚ :=
  plastic_waste_fn num_students avg_boba_per_month vol_plastic_per_straw

/-- Notebook definition of `ocean_plastic_per_year = 0.03 * plastic_waste_per_year`. -/
def ocean_plastic_per_year : ℚ :=
  0.03 * plastic_waste_per_year

/-- Python `int()` truncation toward zero, used by the printed report. -/
def pyInt (q : ℚ) : ℤ :=
  q.num.tdiv q.den

/-- GPGP surface area in square meters (`gpgp_surf_area = 1.6e12`). -/
def gpgp_surf_area : ℚ := 1.6e12

/-- Current GPGP plastic volume: mass `7.9e7` kg over density `0.92`. -/
def gpgp_cur_plastic : ℚ := 7.9e7 / 0.92

/-- Notebook definition of `gpgp_cur_plastic_conc`. -/
def gpgp_cur_plastic_conc : ℚ := gpgp_cur_plastic / gpgp_surf_area

/-- Notebook definition of `gpgp_new_plastic = gpgp_cur_plastic + 0.29 * ocean_plastic_per_year`. -/
def gpgp_new_plastic : ℚ := gpgp_cur_plastic + 0.29 * ocean_plastic_per_year

/-- Notebook definition of `gpgp_new_plastic_conc`. -/
def gpgp_new_plastic_conc : ℚ := gpgp_new_plastic / gpgp_surf_area

/-- Notebook definition of `delta_gpgp_plastic_conc`. -/
def delta_gpgp_plastic_conc : ℚ := gpgp_new_plastic_conc - gpgp_cur_plastic_conc

/-- The weighted-digestibility expression `np.sum(a * phi * z) / phi.dot(z)`
that the notebook instantiates once per organism. -/
def az_of (a phi zv : Vec3) : ℚ :=
  ((a.mul phi).mul zv).sum / phi.dot zv

/-- Notebook definition of `du_az`. -/
def du_az : ℚ := az_of du_a du_phi z

/-- Notebook definition of `sq_az`. -/
def sq_az : ℚ := az_of sq_a sq_phi z

/-- Notebook definition of `th_az`. -/
def th_az : ℚ := az_of th_a th_phi z

/-- Notebook definition of `du_beta = 1 - du_az`. -/
def du_beta : ℚ := 1 - du_az

/-- Notebook definition of `sq_beta = 1 - sq_az`. -/
def sq_beta : ℚ := 1 - sq_az

/-- Notebook definition of `th_beta = 1 - th_az`. -/
def th_beta : ℚ := 1 - th_az

/-- Notebook definition of `du_bmf = 1/(du_beta + du_gamma)`. -/
def du_bmf : ℚ := 1 / (du_beta + du_gamma)

/-- Notebook definition of `sq_bmf = 1/(sq_beta + sq_gamma)`. -/
def sq_bmf : ℚ := 1 / (sq_beta + sq_gamma)

/-- Notebook definition of `th_bmf = 1/(th_beta + th_gamma)`. -/
def th_bmf : ℚ := 1 / (th_beta + th_gamma)

/-- Notebook definition of `du_a_new = du_a + lam * delta_gpgp_plastic_conc`
(numpy scalar broadcast). -/
def du_a_new : Vec3 := du_a.addScalar (lam * delta_gpgp_plastic_conc)

/-- Notebook definition of `sq_a_new = sq_a + lam * delta_gpgp_plastic_conc`. -/
def sq_a_new : Vec3 := sq_a.addScalar (lam * delta_gpgp_plastic_conc)

/-- Notebook definition of `th_a_new = th_a + lam * delta_gpgp_plastic_conc`. -/
def th_a_new : Vec3 := th_a.addScalar (lam * delta_gpgp_plastic_conc)

/-- Notebook definition of `du_az_new`. -/
def du_az_new : ℚ := az_of du_a_new du_phi z

/-- Notebook definition of `sq_az_new`. -/
def sq_az_new : ℚ := az_of sq_a_new sq_phi z

/-- Notebook definition of `th_az_new`. -/
def th_az_new : ℚ := az_of th_a_new th_phi z

/-- Notebook definition of `du_beta_new = 1 - du_az_new`. -/
def du_beta_new : ℚ := 1 - du_az_new

/-- Notebook definition of `sq_beta_new = 1 - sq_az_new`. -/
def sq_beta_new : ℚ := 1 - sq_az_new

/-- Notebook definition of `th_beta_new = 1 - th_az_new`. -/
def th_beta_new : ℚ := 1 - th_az_new

/-- Notebook definition of `du_bmf_new = 1/(du_beta_new + du_gamma)`. -/
def du_bmf_new : ℚ := 1 / (du_beta_new + du_gamma)

/-- Notebook definition of `sq_bmf_new = 1/(sq_beta_new + sq_gamma)`. -/
def sq_bmf_new : ℚ := 1 / (sq_beta_new + sq_gamma)

/-- Notebook definition of `th_bmf_new = 1/(th_beta_new + th_gamma)`. -/
def th_bmf_new : ℚ := 1 / (th_beta_new + th_gamma)

/-- Notebook definition of `du_percent_change = (du_bmf_new - du_bmf)/du_bmf * 100`. -/
def du_percent_change : ℚ := (du_bmf_new - du_bmf) / du_bmf * 100

/-- Notebook definition of `sq_percent_change`. -/
def sq_percent_change : ℚ := (sq_bmf_new - sq_bmf) / sq_bmf * 100

/-- Notebook definition of `th_percent_change`. -/
def th_percent_change : ℚ := (th_bmf_new - th_bmf) / th_bmf * 100

/-- Weighted digestibility written out following the words of the specification:
sum of digestibility times diet-fraction times concentration over the sum of
diet-fraction times concentration. -/
def alphaZ_spec (a phi zv : Vec3) : ℚ :=
  (a.p * phi.p * zv.p + a.c * phi.c * zv.c + a.l * phi.l * zv.l) /
    (phi.p * zv.p + phi.c * zv.c + phi.l * zv.l)

/-- Driving force following the words of the specification: one minus the
weighted digestibility. -/
def beta_spec (a phi zv : Vec3) : ℚ :=
  1 - alphaZ_spec a phi zv

/-- BMF following the words of the specification: one over the sum of driving and
counteracting forces. -/
def bmf_spec (a phi zv : Vec3) (g : ℚ) : ℚ :=
  1 / (beta_spec a phi zv + g)

/-- On nonnegative rationals, Python `int()` truncation agrees with the floor. -/
theorem pyInt_eq_floor (q : ℚ) (h : 0 ≤ q) : pyInt q = ⌊q⌋ := by
  rw [pyInt, Rat.floor_def]
  exact Int.tdiv_eq_ediv (Rat.num_nonneg.mpr h) (Int.natCast_nonneg _)

/-- C1: for every parameter set with nonzero denominator, the code-shaped
weighted digestibility, driving force and BMF agree with the formulas of the
specification, and the three organism baselines computed by the notebook are
exactly those formulas at the dugong, squid and marine mysid literals. -/
theorem c1_bmf_matches_spec (a phi zv : Vec3) (g : ℚ) (h : phi.dot zv ≠ 0) :
    az_of a phi zv = alphaZ_spec a phi zv ∧
    1 - az_of a phi zv = beta_spec a phi zv ∧
    1 / (1 - az_of a phi zv + g) = bmf_spec a phi zv g ∧
    du_az = alphaZ_spec du_a du_phi z ∧
    du_beta = beta_spec du_a du_phi z ∧
    du_bmf = bmf_spec du_a du_phi z du_gamma ∧
    sq_az = alphaZ_spec sq_a sq_phi z ∧
    sq_beta = beta_spec sq_a sq_phi z ∧
    sq_bmf = bmf_spec sq_a sq_phi z sq_gamma ∧
    th_az = alphaZ_spec th_a th_phi z ∧
    th_beta = beta_spec th_a th_phi z ∧
    th_bmf = bmf_spec th_a th_phi z th_gamma :=
  ⟨rfl, rfl, rfl, rfl, rfl, rfl, rfl, rfl, rfl, rfl, rfl, rfl⟩

/-- Witness for C1 at the dugong parameters. -/
theorem c1_witness :
    du_phi.dot z ≠ 0 ∧ du_az = alphaZ_spec du_a du_phi z := by
  have hz : du_phi.dot z ≠ 0 := by norm_num [Vec3.dot, du_phi, z]
  exact ⟨hz, (c1_bmf_matches_spec du_a du_phi z du_gamma hz).2.2.2.1⟩

/-- C2 counterexample: the concentration delta computed by the notebook is not
divided by the plastic density 0.92; the density enters only the baseline mass,
which cancels in the difference. -/
theorem c2_density_counterexample :
    delta_gpgp_plastic_conc ≠
      0.29 * 0.03 * plastic_waste_per_year / gpgp_surf_area / 0.92 := by
  norm_num [delta_gpgp_plastic_conc, gpgp_new_plastic_conc, gpgp_cur_plastic_conc,
    gpgp_new_plastic, gpgp_cur_plastic, gpgp_surf_area, ocean_plastic_per_year,
    plastic_waste_per_year, plastic_waste_fn, num_students, avg_boba_per_month,
    vol_plastic_per_straw]

/-- C2 amended: the concentration delta equals exactly patch-fraction times
ocean-fraction times annual waste volume, divided by the patch area (with no
density division). -/
theorem c2_delta_identity :
    delta_gpgp_plastic_conc =
      0.29 * 0.03 * plastic_waste_per_year / gpgp_surf_area := by
  norm_num [delta_gpgp_plastic_conc, gpgp_new_plastic_conc, gpgp_cur_plastic_conc,
    gpgp_new_plastic, gpgp_cur_plastic, gpgp_surf_area, ocean_plastic_per_year,
    plastic_waste_per_year, plastic_waste_fn, num_students, avg_boba_per_month,
    vol_plastic_per_straw]

/-- C3 counterexample: with the all-ones digestibility vector but an all-zero
diet-fraction vector, the denominator vanishes and the weighted digestibility
is not 1 (the code would produce NaN from 0/0; in this rational embedding
division by zero yields 0). -/
theorem c3_zero_weights_counterexample :
    az_of ⟨1, 1, 1⟩ ⟨0, 0, 0⟩ z ≠ 1 := by
  norm_num [az_of, Vec3.mul, Vec3.sum, Vec3.dot, z]

/-- C3 amended: with unit digestibility in every component and a nonzero
denominator, the weighted digestibility equals exactly 1. -/
theorem c3_perfect_digestion (phi zv : Vec3) (h : phi.dot zv ≠ 0) :
    az_of ⟨1, 1, 1⟩ phi zv = 1 := by
  have hnum : ((Vec3.mul ⟨1, 1, 1⟩ phi).mul zv).sum = phi.dot zv := by
    simp [Vec3.mul, Vec3.sum, Vec3.dot]
  rw [az_of, hnum, div_self h]

/-- Witness for C3 at the dugong diet fractions. -/
theorem c3_witness :
    du_phi.dot z ≠ 0 ∧ az_of ⟨1, 1, 1⟩ du_phi z = 1 := by
  have hz : du_phi.dot z ≠ 0 := by norm_num [Vec3.dot, du_phi, z]
  exact ⟨hz, c3_perfect_digestion du_phi z hz⟩

/-- C4: the baseline dugong BMF equals exactly 20 in rational arithmetic. -/
theorem c4_dugong_baseline_bmf : du_bmf = 20 := by
  norm_num [du_bmf, du_beta, du_az, az_of, Vec3.mul, Vec3.sum, Vec3.dot,
    du_a, du_phi, z, du_gamma]

/-- C5: the annual waste volume is 41280 liters, the ocean volume is 1238.4
liters, and the printed report truncates them to the integers 41280 and 1238. -/
theorem c5_waste_report :
    plastic_waste_per_year = 41280 ∧
    ocean_plastic_per_year = 1238.4 ∧
    pyInt plastic_waste_per_year = 41280 ∧
    pyInt ocean_plastic_per_year = 1238 := by
  have h1 : plastic_waste_per_year = 41280 := by
    norm_num [plastic_waste_per_year, plastic_waste_fn, num_students,
      avg_boba_per_month, vol_plastic_per_straw]
  have h2 : ocean_plastic_per_year = 1238.4 := by
    norm_num [ocean_plastic_per_year, plastic_waste_per_year, plastic_waste_fn,
      num_students, avg_boba_per_month, vol_plastic_per_straw]
  refine ⟨h1, h2, ?_, ?_⟩
  · rw [h1, pyInt_eq_floor _ (by norm_num), Int.floor_eq_iff]
    constructor <;> norm_num
  · rw [h2, pyInt_eq_floor _ (by norm_num), Int.floor_eq_iff]
    constructor <;> norm_num

/-- C6: on the three fixed organism literal parameter sets, every denominator
of the weighted-digestibility formula and of the BMF formula is nonzero, for
the baseline as well as for the perturbed computation. -/
theorem c6_denominators_nonzero :
    du_phi.dot z ≠ 0 ∧ sq_phi.dot z ≠ 0 ∧ th_phi.dot z ≠ 0 ∧
    du_beta + du_gamma ≠ 0 ∧ sq_beta + sq_gamma ≠ 0 ∧ th_beta + th_gamma ≠ 0 ∧
    du_beta_new + du_gamma ≠ 0 ∧ sq_beta_new + sq_gamma ≠ 0 ∧
    th_beta_new + th_gamma ≠ 0 := by
  norm_num [du_beta, sq_beta, th_beta, du_beta_new, sq_beta_new, th_beta_new,
    du_az, sq_az, th_az, du_az_new, sq_az_new, th_az_new,
    du_a_new, sq_a_new, th_a_new, az_of, Vec3.mul, Vec3.sum, Vec3.dot,
    Vec3.addScalar, du_a, du_phi, du_gamma, sq_a, sq_phi, sq_gamma,
    th_a, th_phi, th_gamma, z, lam, delta_gpgp_plastic_conc,
    gpgp_new_plastic_conc, gpgp_cur_plastic_conc, gpgp_new_plastic,
    gpgp_cur_plastic, gpgp_surf_area, ocean_plastic_per_year,
    plastic_waste_per_year, plastic_waste_fn, num_students, avg_boba_per_month,
    vol_plastic_per_straw]

/-- C7: the perturbed digestibility vectors add the single scalar
`lam * delta_gpgp_plastic_conc` to every component, and the perturbed
weighted digestibility, driving force and BMF are the identical formulas as
the baseline, applied to the shifted vectors with `phi`, `z` and the gammas
unchanged. -/
theorem c7_perturbed_recomputation :
    du_a_new.p = du_a.p + lam * delta_gpgp_plastic_conc ∧
    du_a_new.c = du_a.c + lam * delta_gpgp_plastic_conc ∧
    du_a_new.l = du_a.l + lam * delta_gpgp_plastic_conc ∧
    sq_a_new.p = sq_a.p + lam * delta_gpgp_plastic_conc ∧
    sq_a_new.c = sq_a.c + lam * delta_gpgp_plastic_conc ∧
    sq_a_new.l = sq_a.l + lam * delta_gpgp_plastic_conc ∧
    th_a_new.p = th_a.p + lam * delta_gpgp_plastic_conc ∧
    th_a_new.c = th_a.c + lam * delta_gpgp_plastic_conc ∧
    th_a_new.l = th_a.l + lam * delta_gpgp_plastic_conc ∧
    du_az_new = alphaZ_spec du_a_new du_phi z ∧
    du_beta_new = beta_spec du_a_new du_phi z ∧
    du_bmf_new = bmf_spec du_a_new du_phi z du_gamma ∧
    sq_az_new = alphaZ_spec sq_a_new sq_phi z ∧
    sq_beta_new = beta_spec sq_a_new sq_phi z ∧
    sq_bmf_new = bmf_spec sq_a_new sq_phi z sq_gamma ∧
    th_az_new = alphaZ_spec th_a_new th_phi z ∧
    th_beta_new = beta_spec th_a_new th_phi z ∧
    th_bmf_new = bmf_spec th_a_new th_phi z th_gamma :=
  ⟨rfl, rfl, rfl, rfl, rfl, rfl, rfl, rfl, rfl, rfl, rfl, rfl, rfl, rfl, rfl,
    rfl, rfl, rfl⟩

/-- C8: the annual plastic-waste volume is linear in each input separately:
doubling any one input doubles the output, scaling any one input by a factor
scales the output by that factor, and it is additive in each input. -/
theorem c8_waste_linear (s r v k : ℚ) :
    plastic_waste_fn (2 * s) r v = 2 * plastic_waste_fn s r v ∧
    plastic_waste_fn s (2 * r) v = 2 * plastic_waste_fn s r v ∧
    plastic_waste_fn s r (2 * v) = 2 * plastic_waste_fn s r v ∧
    plastic_waste_fn (k * s) r v = k * plastic_waste_fn s r v ∧
    plastic_waste_fn s (k * r) v = k * plastic_waste_fn s r v ∧
    plastic_waste_fn s r (k * v) = k * plastic_waste_fn s r v ∧
    plastic_waste_fn (s + k) r v = plastic_waste_fn s r v + plastic_waste_fn k r v := by
  refine ⟨?_, ?_, ?_, ?_, ?_, ?_, ?_⟩ <;> · simp only [plastic_waste_fn]; ring

/-- C9: adding a scalar uniformly to the digestibility vector shifts the
weighted digestibility by exactly that scalar whenever the denominator is
nonzero; consequently each perturbed driving force equals the baseline one
minus exactly `lam * delta_gpgp_plastic_conc`. -/
theorem c9_uniform_shift (a phi zv : Vec3) (s : ℚ) (h : phi.dot zv ≠ 0) :
    az_of (a.addScalar s) phi zv = az_of a phi zv + s ∧
    du_beta_new = du_beta - lam * delta_gpgp_plastic_conc ∧
    sq_beta_new = sq_beta - lam * delta_gpgp_plastic_conc ∧
    th_beta_new = th_beta - lam * delta_gpgp_plastic_conc := by
  refine ⟨?_, ?_, ?_, ?_⟩
  · have hexp : ((Vec3.mul (a.addScalar s) phi).mul zv).sum
        = ((a.mul phi).mul zv).sum + s * phi.dot zv := by
      simp only [Vec3.addScalar, Vec3.mul, Vec3.sum, Vec3.dot]
      ring
    rw [az_of, az_of, hexp, add_div, mul_div_assoc, div_self h, mul_one]
  · norm_num [du_beta_new, du_beta, du_az_new, du_az, du_a_new, az_of,
      Vec3.mul, Vec3.sum, Vec3.dot, Vec3.addScalar, du_a, du_phi, z, lam,
      delta_gpgp_plastic_conc, gpgp_new_plastic_conc, gpgp_cur_plastic_conc,
      gpgp_new_plastic, gpgp_cur_plastic, gpgp_surf_area,
      ocean_plastic_per_year, plastic_waste_per_year, plastic_waste_fn,
      num_students, avg_boba_per_month, vol_plastic_per_straw]
  · norm_num [sq_beta_new, sq_beta, sq_az_new, sq_az, sq_a_new, az_of,
      Vec3.mul, Vec3.sum, Vec3.dot, Vec3.addScalar, sq_a, sq_phi, z, lam,
      delta_gpgp_plastic_conc, gpgp_new_plastic_conc, gpgp_cur_plastic_conc,
      gpgp_new_plastic, gpgp_cur_plastic, gpgp_surf_area,
      ocean_plastic_per_year, plastic_waste_per_year, plastic_waste_fn,
      num_students, avg_boba_per_month, vol_plastic_per_straw]
  · norm_num [th_beta_new, th_beta, th_az_new, th_az, th_a_new, az_of,
      Vec3.mul, Vec3.sum, Vec3.dot, Vec3.addScalar, th_a, th_phi, z, lam,
      delta_gpgp_plastic_conc, gpgp_new_plastic_conc, gpgp_cur_plastic_conc,
      gpgp_new_plastic, gpgp_cur_plastic, gpgp_surf_area,
      ocean_plastic_per_year, plastic_waste_per_year, plastic_waste_fn,
      num_students, avg_boba_per_month, vol_plastic_per_straw]

/-- Witness for C9: shifting the dugong digestibility by 1 shifts the weighted
digestibility by 1. -/
theorem c9_witness :
    du_phi.dot z ≠ 0 ∧ az_of (du_a.addScalar 1) du_phi z = az_of du_a du_phi z + 1 := by
  have hz : du_phi.dot z ≠ 0 := by norm_num [Vec3.dot, du_phi, z]
  exact ⟨hz, (c9_uniform_shift du_a du_phi z 1 hz).1⟩

/-- C10: the concentration delta is strictly positive and with `lam = 1e5`
the perturbed BMF strictly exceeds the baseline BMF for all three organisms,
so every percent change fed to the bar chart is strictly positive. -/
theorem c10_perturbed_bmf_strictly_larger :
    0 < delta_gpgp_plastic_conc ∧
    du_bmf < du_bmf_new ∧ sq_bmf < sq_bmf_new ∧ th_bmf < th_bmf_new ∧
    0 < du_percent_change ∧ 0 < sq_percent_change ∧ 0 < th_percent_change := by
  norm_num [du_percent_change, sq_percent_change, th_percent_change,
    du_bmf, sq_bmf, th_bmf, du_bmf_new, sq_bmf_new, th_bmf_new,
    du_beta, sq_beta, th_beta, du_beta_new, sq_beta_new, th_beta_new,
    du_az, sq_az, th_az, du_az_new, sq_az_new, th_az_new,
    du_a_new, sq_a_new, th_a_new, az_of, Vec3.mul, Vec3.sum, Vec3.dot,
    Vec3.addScalar, du_a, du_phi, du_gamma, sq_a, sq_phi, sq_gamma,
    th_a, th_phi, th_gamma, z, lam, delta_gpgp_plastic_conc,
    gpgp_new_plastic_conc, gpgp_cur_plastic_conc, gpgp_new_plastic,
    gpgp_cur_plastic, gpgp_surf_area, ocean_plastic_per_year,
    plastic_waste_per_year, plastic_waste_fn, num_students, avg_boba_per_month,
    vol_plastic_per_straw]

end Microplastics
